import Mathlib

/-!
Shallow embedding of the session initiation / rehydration workflow of the
amazon-connect-chat-interface repository.

Embedded source files:
  * `src/components/Chat/ChatContainer.js` — the Session Orchestrator:
    `checkAndRehydrateChat`, `submitChatInitiation`, `saveChatSession`,
    `openChatSession`, `resetState`.
  * `ChatInterface.js` (unnamed source file) — `ChatInterface.initiateChat`,
    the default `clientConfig`, and the window `message` listener.

Modelling conventions:
  * Only the single storage key `chatSessionData` is ever touched, so each of
    the two browser stores (localStorage / sessionStorage) is modelled as an
    `Option StoredText`: the value currently held under that key, if any.
  * A stored text is either a string that `JSON.parse` rejects
    (`StoredText.invalid raw`, carrying the raw text) or a string whose parse
    succeeds (`StoredText.valid v`, carrying the parsed value).  JS string
    truthiness (the empty string is falsy) is modelled by `truthyText`.
  * A successfully parsed JSON value (`ParsedValue`) is `null`, a non-null
    primitive (carrying only its JS truthiness, which is all the code ever
    inspects of a primitive), or an object `ParsedData` with the fields the
    code reads.  A field that is absent, or present with a falsy non-object
    value where the code only tests truthiness before short-circuiting, is
    modelled as `none`.
  * The two asynchronous external collaborators (the Session Initiator call
    `initiateChat` of ChatInitiator.js and the Chat Session `openChatSession`
    call of ChatSession.js, both outside the embedded files) are modelled by
    outcome parameters of type `Except String _`: the resolution or rejection
    of the awaited promise.  A thrown / uncaught exception is an
    `Except.error`; a function whose result type is not `Except` cannot let
    an exception escape (every `catch` in the source is embedded explicitly).
  * `setState` calls and storage operations are recorded in order in an event
    trace where the claims need sequencing (`submitChatInitiation`,
    `saveChatSession`).
-/

namespace ConnectChat

/-- The named boolean feature-permission map, restricted to the single key the
code reads (`CHAT_FEATURE_TYPES.ATTACHMENTS`).  An object without the key
behaves like `ATTACHMENTS := false` (undefined is falsy). -/
structure FeaturePermissions where
  ATTACHMENTS : Bool
deriving DecidableEq

/-- `ContentType.MESSAGE_CONTENT_TYPE.TEXT_MARKDOWN` from `datamodel/Model`
(not among the embedded files); the markdown content-type marker tested by
`supportedMessagingContentTypes.split(",").includes(...)`. -/
def TEXT_MARKDOWN : String := "text/markdown"

/-- The Chat Configuration supplied by the host (and, for
`ChatInterface.clientConfig`, the defaults).  `none` models an absent field. -/
structure ChatConfig where
  contactFlowId : Option String
  instanceId : Option String
  region : Option String
  stage : Option String
  contactAttributes : Option (List (String × String))
  featurePermissions : Option FeaturePermissions
  chatPersistence : Option String
  language : Option String
  supportedMessagingContentTypes : Option String
  authenticationRedirectUri : Option String
  authenticationIdentityProvider : Option String
  name : Option String
deriving DecidableEq

/-- `startChatResult` as far as the code inspects it: the two identifier
fields whose truthiness gates rehydration. -/
structure StartChatResult where
  ContactId : Option String
  ParticipantId : Option String
deriving DecidableEq

/-- The `chatDetails` object (result of the Session Initiator, or the
`chatDetails` field of a persisted record), restricted to the fields the
embedded code reads. -/
structure ChatDetails where
  startChatResult : Option StartChatResult
  featurePermissions : Option FeaturePermissions
deriving DecidableEq

/-- The `customizationParams` object built in `submitChatInitiation`. -/
structure CustomizationParams where
  authenticationRedirectUri : String
  authenticationIdentityProvider : String
deriving DecidableEq

/-- The derived composer configuration. -/
structure ComposerConfig where
  attachmentsEnabled : Bool
  richMessagingEnabled : Bool
deriving DecidableEq

/-- A parsed Session Record object: the fields `checkAndRehydrateChat` and
`saveChatSession` read/write.  `none` models an absent key (JSON.stringify
drops `undefined` values, so a round trip through storage preserves this). -/
structure ParsedData where
  chatDetails : Option ChatDetails
  displayName : Option String
  region : Option String
  stage : Option String
  customizationParams : Option CustomizationParams
  language : Option String
  composerConfig : Option ComposerConfig
deriving DecidableEq

/-- A JSON value produced by a successful `JSON.parse` of the stored text:
`null`, a non-null primitive (of which the code only ever observes the JS
truthiness), or a Session-Record-shaped object. -/
inductive ParsedValue
  | null
  | prim (truthy : Bool)
  | obj (p : ParsedData)
deriving DecidableEq

/-- A text stored under the `chatSessionData` key: either text `JSON.parse`
throws on (carrying the raw string) or text whose parse yields `v`. -/
inductive StoredText
  | invalid (raw : String)
  | valid (v : ParsedValue)
deriving DecidableEq

/-- JS truthiness of the stored text itself: the empty string is falsy, every
other string is truthy (a successfully parsing text is never empty, since
`JSON.parse("")` throws). -/
def truthyText : StoredText → Bool
  | .invalid raw => !(raw == "")
  | .valid _ => true

/-- Truthiness of `storage.getItem(key)`: `null` (absent key) is falsy. -/
def optTruthy : Option StoredText → Bool
  | some t => truthyText t
  | none => false

/-- `localStorage.getItem('chatSessionData') || sessionStorage.getItem('chatSessionData') || null`
(line 79 of ChatContainer.js): the first truthy operand, else `null`. -/
def firstTruthy (ls ss : Option StoredText) : Option StoredText :=
  if optTruthy ls then ls else if optTruthy ss then ss else none

/-- JS truthiness of a parsed JSON value (`if (chatSessionData)` in
`ChatInterface.initiateChat`). -/
def parsedTruthy : ParsedValue → Bool
  | .null => false
  | .prim b => b
  | .obj _ => true

/-- JS truthiness of a possibly-absent string field (absent/undefined and the
empty string are falsy). -/
def strTruthy : Option String → Bool
  | some s => !(s == "")
  | none => false

/-- JS `x || d` on a possibly-absent string: the default is taken when `x` is
absent or the empty string. -/
def jsOrStr : Option String → String → String
  | some s, d => if s == "" then d else s
  | none, d => d

/-- The two browser stores. -/
inductive StoreName
  | localStorage
  | sessionStorage
deriving DecidableEq

/-- `window[input.chatPersistence]` restricted to the configuration domain of
`chatPersistence` (enum `"localStorage" | "sessionStorage"` or absent, per the
data model): the named store when recognized, else a falsy value. -/
def recognizedStore : Option String → Option StoreName
  | some "localStorage" => some .localStorage
  | some "sessionStorage" => some .sessionStorage
  | _ => none

/-- The four-state session status flag. -/
inductive SessionStatus
  | NotInitiated
  | Initiating
  | Initiated
  | InitiateFailed
deriving DecidableEq

/-- `chatDetails.startChatResult ? chatDetails : \x7b startChatResult: chatDetails \x7d`
(line 228): the argument of the ChatSession constructor, either the details
object as-is or the details object wrapped as a fresh `startChatResult`
field. -/
inductive FinalDetails
  | asIs (cd : ChatDetails)
  | wrapped (cd : ChatDetails)
deriving DecidableEq

/-- A constructed ChatSession instance, recording its construction arguments
(the transport internals live in ChatSession.js, outside the embedded files). -/
structure ChatSession where
  finalDetails : FinalDetails
  displayName : Option String
  region : Option String
  stage : Option String
  customizationParams : Option CustomizationParams
deriving DecidableEq

/-- The React component state of ChatContainer (`this.state`). -/
structure ContainerState where
  chatSession : Option ChatSession
  composerConfig : Option ComposerConfig
  status : SessionStatus
  language : Option String
deriving DecidableEq

/-- The constructor's initial state (lines 47-52; the initial `composerConfig`
is the empty object, carrying none of the two derived flags). -/
def initialState : ContainerState :=
  { chatSession := none
    composerConfig := none
    status := .NotInitiated
    language := some "en_US" }

/-- The world the orchestrator acts on: the `chatSessionData` entry of each
store plus the component state. -/
structure World where
  ls : Option StoredText
  ss : Option StoredText
  state : ContainerState
deriving DecidableEq

/-- A storage operation on the `chatSessionData` key, in program order. -/
inductive StorageOp
  | removeItem (store : StoreName)
  | setItem (store : StoreName) (value : StoredText)
deriving DecidableEq

/-- An observable step of `submitChatInitiation`, in program order. -/
inductive InitEvent
  | setStatus (s : SessionStatus)
  | callInitiator
  | callOpen
  | storage (op : StorageOp)
  | setCurrentSession
  | cbSuccess (sess : ChatSession)
  | cbFailure (e : String)
deriving DecidableEq

/-- `input.featurePermissions && input.featurePermissions[CHAT_FEATURE_TYPES.ATTACHMENTS]`:
falsy when the map is absent, else the flag. -/
def fpAttachments : Option FeaturePermissions → Bool
  | some fp => fp.ATTACHMENTS
  | none => false

/-- `attachmentsEnabled` (lines 174-176 and 214-215): host flag ORed with the
initiator-result flag. -/
def attachmentsEnabledOf (input : ChatConfig) (cd : ChatDetails) : Bool :=
  fpAttachments input.featurePermissions || fpAttachments cd.featurePermissions

/-- `richMessagingEnabled` (lines 177 and 216): whether the comma-joined
content-type list (when it is a string) contains the markdown marker. -/
def richMessagingEnabledOf (input : ChatConfig) : Bool :=
  match input.supportedMessagingContentTypes with
  | some s => (s.splitOn ",").contains TEXT_MARKDOWN
  | none => false

/-- The `customizationParams` object built at lines 159-162. -/
def customizationParamsOf (input : ChatConfig) : CustomizationParams :=
  { authenticationRedirectUri := jsOrStr input.authenticationRedirectUri ""
    authenticationIdentityProvider := jsOrStr input.authenticationIdentityProvider "" }

/-- The `chatSessionData` record object built in `saveChatSession`
(lines 206-218). -/
def buildRecord (input : ChatConfig) (cd : ChatDetails) (cp : CustomizationParams) :
    ParsedData :=
  { chatDetails := some cd
    displayName := input.name
    region := input.region
    stage := input.stage
    customizationParams := some cp
    language := input.language
    composerConfig := some
      { attachmentsEnabled := attachmentsEnabledOf input cd
        richMessagingEnabled := richMessagingEnabledOf input } }

/-- The result of `saveChatSession`: the final contents of both stores and the
ordered list of storage operations performed. -/
structure SaveResult where
  ls : Option StoredText
  ss : Option StoredText
  ops : List StorageOp
deriving DecidableEq

/-- `saveChatSession(input, chatDetails, customizationParams)` (lines 199-224):
removes the key from both stores, then writes the fresh record to
`window[input.chatPersistence]` when that names a store; the `else` branch
removes from both stores again.  The prior contents (`_ls`, `_ss`) are never
read. -/
def saveChatSession (input : ChatConfig) (cd : ChatDetails) (cp : CustomizationParams)
    ( _ls _ss : Option StoredText) : SaveResult :=
  let record : StoredText := .valid (.obj (buildRecord input cd cp))
  match recognizedStore input.chatPersistence with
  | some .localStorage =>
    { ls := some record, ss := none
      ops := [.removeItem .localStorage, .removeItem .sessionStorage,
              .setItem .localStorage record] }
  | some .sessionStorage =>
    { ls := none, ss := some record
      ops := [.removeItem .localStorage, .removeItem .sessionStorage,
              .setItem .sessionStorage record] }
  | none =>
    { ls := none, ss := none
      ops := [.removeItem .localStorage, .removeItem .sessionStorage,
              .removeItem .localStorage, .removeItem .sessionStorage] }

/-- `openChatSession(chatDetails, name, region, stage, customizationParams)`
(lines 226-248): wraps the details when they lack a `startChatResult` field,
constructs the ChatSession, and returns it when the transport open resolves;
a rejected open rejects the returned promise (`Except.error`).  The
`onChatClose` registration (an `endChat` EventBus trigger) has no effect on
the embedded state. -/
def openChatSession (chatDetails : ChatDetails) (displayName region stage : Option String)
    (customizationParams : Option CustomizationParams)
    (openOutcome : Except String Unit) : Except String ChatSession :=
  let finalChatDetails : FinalDetails :=
    if chatDetails.startChatResult.isSome then .asIs chatDetails else .wrapped chatDetails
  let chatSession : ChatSession :=
    { finalDetails := finalChatDetails
      displayName := displayName
      region := region
      stage := stage
      customizationParams := customizationParams }
  match openOutcome with
  | .ok _ => .ok chatSession
  | .error e => .error e

/-- The result of `checkAndRehydrateChat`: final store contents and component
state.  The function is total: every exception raised inside its `try` block
(parse failure, property access on `null`, rejected open) is consumed by the
`catch` clause, so no exception escapes the call. -/
structure RehydrateResult where
  ls : Option StoredText
  ss : Option StoredText
  state : ContainerState
deriving DecidableEq

/-- The body of `checkAndRehydrateChat` once the local `chatSessionData` (the
value of the truthy storage chain) is in hand: the `if (chatSessionData)`
guard, the `try`/`catch`, and the final `setState`.  A text `JSON.parse`
throws on is caught: both stores are cleared and status becomes NotInitiated.
A parse result of `null` throws a TypeError at `parsedData.chatDetails` and
lands in the same `catch`.  A non-null primitive has a falsy (undefined)
`chatDetails`, so the guard of line 86 fails and the code falls through to
NotInitiated leaving the stores untouched; an object missing
`chatDetails`/`startChatResult` or with falsy `ContactId`/`ParticipantId`
does the same (the `&&` chain short-circuits).  A structurally valid record
awaits the open inside the `try`: a rejected open is caught (stores cleared,
NotInitiated); a resolved open sets status Initiated with the session and the
record's `composerConfig` and `language`, returning early. -/
def rehydrateStep (chatSessionData : Option StoredText) (ls ss : Option StoredText)
    (st : ContainerState) (openOutcome : Except String Unit) : RehydrateResult :=
  match chatSessionData with
  | none => { ls := ls, ss := ss, state := { st with status := .NotInitiated } }
  | some (.invalid _) =>
    { ls := none, ss := none, state := { st with status := .NotInitiated } }
  | some (.valid .null) =>
    { ls := none, ss := none, state := { st with status := .NotInitiated } }
  | some (.valid (.prim _)) =>
    { ls := ls, ss := ss, state := { st with status := .NotInitiated } }
  | some (.valid (.obj parsedData)) =>
    match parsedData.chatDetails with
    | none => { ls := ls, ss := ss, state := { st with status := .NotInitiated } }
    | some chatDetails =>
      match chatDetails.startChatResult with
      | none => { ls := ls, ss := ss, state := { st with status := .NotInitiated } }
      | some r =>
        if strTruthy r.ContactId && strTruthy r.ParticipantId then
          match openChatSession chatDetails parsedData.displayName parsedData.region
              parsedData.stage parsedData.customizationParams openOutcome with
          | .error _ =>
            { ls := none, ss := none, state := { st with status := .NotInitiated } }
          | .ok chatSession =>
            { ls := ls
              ss := ss
              state := { st with
                         status := .Initiated
                         chatSession := some chatSession
                         composerConfig := parsedData.composerConfig
                         language := parsedData.language } }
        else { ls := ls, ss := ss, state := { st with status := .NotInitiated } }

/-- `checkAndRehydrateChat()` (lines 78-114): reads
`localStorage.getItem('chatSessionData') || sessionStorage.getItem('chatSessionData') || null`
and proceeds with `rehydrateStep`. -/
def checkAndRehydrateChat (ls ss : Option StoredText) (st : ContainerState)
    (openOutcome : Except String Unit) : RehydrateResult :=
  rehydrateStep (firstTruthy ls ss) ls ss st openOutcome

/-- The structural-validity guard of line 86, as a standalone predicate:
`chatDetails && chatDetails.startChatResult && chatDetails.startChatResult.ContactId && chatDetails.startChatResult.ParticipantId`. -/
def structValid (p : ParsedData) : Bool :=
  match p.chatDetails with
  | none => false
  | some cd =>
    match cd.startChatResult with
    | none => false
    | some r => strTruthy r.ContactId && strTruthy r.ParticipantId

/-- The result of `submitChatInitiation`: the final world plus the ordered
trace of observable steps. -/
structure InitiationResult where
  world : World
  trace : List InitEvent
deriving DecidableEq

/-- `submitChatInitiation(input, success, failure)` (lines 157-193).  Sets
status Initiating synchronously, then awaits the Session Initiator and the
session open inside a `try`; on either rejection the `catch` sets status
InitiateFailed and invokes the failure continuation with the error, touching
no storage.  On success it saves the session record, sets the current session
instance, sets status Initiated with the derived composer config and language,
and invokes the success continuation with the session. -/
def submitChatInitiation (input : ChatConfig) (w : World)
    (initiatorOutcome : Except String ChatDetails)
    (openOutcome : Except String Unit) : InitiationResult :=
  let cp := customizationParamsOf input
  match initiatorOutcome with
  | .error e =>
    { world := { w with state := { w.state with status := .InitiateFailed } }
      trace := [.setStatus .Initiating, .callInitiator,
                .setStatus .InitiateFailed, .cbFailure e] }
  | .ok chatDetails =>
    match openChatSession chatDetails input.name input.region input.stage
        (some cp) openOutcome with
    | .error e =>
      { world := { w with state := { w.state with status := .InitiateFailed } }
        trace := [.setStatus .Initiating, .callInitiator, .callOpen,
                  .setStatus .InitiateFailed, .cbFailure e] }
    | .ok chatSession =>
      let saved := saveChatSession input chatDetails cp w.ls w.ss
      { world :=
          { ls := saved.ls
            ss := saved.ss
            state :=
              { status := .Initiated
                chatSession := some chatSession
                composerConfig := some
                  { attachmentsEnabled := attachmentsEnabledOf input chatDetails
                    richMessagingEnabled := richMessagingEnabledOf input }
                language := some (jsOrStr input.language "en_US") } }
        trace := [.setStatus .Initiating, .callInitiator, .callOpen]
                   ++ saved.ops.map .storage
                   ++ [.setCurrentSession, .setStatus .Initiated, .cbSuccess chatSession] }

/-- `resetState` (lines 250-255): removes the key from both stores, sets
status NotInitiated and drops the in-memory session reference. -/
def resetState (w : World) : World :=
  { ls := none, ss := none
    state := { w.state with status := .NotInitiated, chatSession := none } }

/-- Either awaited step of `submitChatInitiation` rejects with `e`: the
initiator call itself, or (the initiator having resolved) the session open. -/
def failsWith (io : Except String ChatDetails) (oo : Except String Unit) (e : String) : Prop :=
  io = .error e ∨ ((∃ cd, io = .ok cd) ∧ oo = .error e)

/-- The default `clientConfig` of ChatInterface.js (lines 11-18); fields the
defaults do not mention are absent. -/
def clientConfig : ChatConfig :=
  { contactFlowId := some ""
    instanceId := some ""
    region := some ""
    stage := some "prod"
    contactAttributes := some []
    featurePermissions := some { ATTACHMENTS := false }
    chatPersistence := none
    language := none
    supportedMessagingContentTypes := none
    authenticationRedirectUri := none
    authenticationIdentityProvider := none
    name := none }

/-- `Object.assign(\x7b\x7d, this.clientConfig, input)`: per key, the host
value when the host supplies the key, else the default. -/
def mergeConfig (defaults input : ChatConfig) : ChatConfig :=
  { contactFlowId := input.contactFlowId <|> defaults.contactFlowId
    instanceId := input.instanceId <|> defaults.instanceId
    region := input.region <|> defaults.region
    stage := input.stage <|> defaults.stage
    contactAttributes := input.contactAttributes <|> defaults.contactAttributes
    featurePermissions := input.featurePermissions <|> defaults.featurePermissions
    chatPersistence := input.chatPersistence <|> defaults.chatPersistence
    language := input.language <|> defaults.language
    supportedMessagingContentTypes :=
      input.supportedMessagingContentTypes <|> defaults.supportedMessagingContentTypes
    authenticationRedirectUri :=
      input.authenticationRedirectUri <|> defaults.authenticationRedirectUri
    authenticationIdentityProvider :=
      input.authenticationIdentityProvider <|> defaults.authenticationIdentityProvider
    name := input.name <|> defaults.name }

/-- The EventBus trigger emitted by `ChatInterface.initiateChat`: a fresh
`initChat` with the merged config, or a `rehydrateChat` whose payload is the
spread merge of the merged config and the recovered session data (both
components carried). -/
inductive TriggeredEvent
  | initChat (cfg : ChatConfig)
  | rehydrateChat (cfg : ChatConfig) (data : ParsedValue)
deriving DecidableEq

/-- `ChatInterface.initiateChat(input, success, failure)` (ChatInterface.js
lines 20-41).  Merges the input over the client defaults, then reads
`window[input.chatPersistence].getItem("chatSessionData")` when the mode names
a store and parses it with `JSON.parse` outside any `try`: a parse failure
escapes to the caller (`Except.error`).  `JSON.parse(null)` (absent key)
yields `null`, which is falsy.  A truthy parse result triggers
`rehydrateChat`, otherwise `initChat` is triggered with the merged config. -/
def interfaceInitiateChat (input : ChatConfig) (ls ss : Option StoredText) :
    Except String TriggeredEvent :=
  let chatInput := mergeConfig clientConfig input
  let stored : Option StoredText :=
    match recognizedStore input.chatPersistence with
    | some .localStorage => ls
    | some .sessionStorage => ss
    | none => none
  match stored with
  | some (.invalid raw) => .error ("SyntaxError: Unexpected token in JSON: " ++ raw)
  | some (.valid v) =>
    if parsedTruthy v then .ok (.rehydrateChat chatInput v) else .ok (.initChat chatInput)
  | none => .ok (.initChat chatInput)

/-- The payload posted by the host page: an object optionally carrying an
`initChat` key whose value is the configuration. -/
structure MessagePayload where
  initChat : Option ChatConfig
deriving DecidableEq

/-- A DOM `message` event: the posted payload is delivered under the event's
`data` property; the event object has no own `initChat` property. -/
structure MessageEvent where
  data : MessagePayload
deriving DecidableEq

/-- The property access `data.initChat` performed by the listener, where
`data` is the MessageEvent itself (the listener's parameter): a DOM
MessageEvent has no `initChat` property, so the access yields `undefined`
(the payload carrying `initChat` sits one level down, at `data.data`). -/
def messageEventInitChat ( _ev : MessageEvent) : Option ChatConfig := none

/-- `window.addEventListener("message", function(data)\x7b if(data.initChat)\x7b ... initiateChat(data) \x7d \x7d)`
(ChatInterface.js lines 49-53): the guard inspects `data.initChat` on the
event object, and only a truthy result would invoke
`ChatInterface.initiateChat` (to which the code would pass the event object
itself, not the carried configuration).  Returns the invocation's result when
the guard fires, `none` when the listener does nothing. -/
def onWindowMessage (ev : MessageEvent) (ls ss : Option StoredText) :
    Option (Except String TriggeredEvent) :=
  match messageEventInitChat ev with
  | some cfg => some (interfaceInitiateChat cfg ls ss)
  | none => none

/-- Exactly one store holds a record. -/
def exactlyOneRecord (r : SaveResult) : Prop :=
  (r.ls ≠ none ∧ r.ss = none) ∨ (r.ls = none ∧ r.ss ≠ none)

/-- A parsed value that is not `null` and fails the structural-validity guard
of line 86. -/
def structurallyInvalidNonNull : ParsedValue → Prop
  | .null => False
  | .prim _ => True
  | .obj p => structValid p = false

/-- A concrete start-chat result for concrete evaluations. -/
def sampleResult : StartChatResult := { ContactId := some "c1", ParticipantId := some "p1" }

/-- A concrete chat-details object. -/
def sampleDetails : ChatDetails := { startChatResult := some sampleResult, featurePermissions := none }

/-- Concrete customization params. -/
def sampleParams : CustomizationParams :=
  { authenticationRedirectUri := "", authenticationIdentityProvider := "" }

/-- A concrete, structurally valid persisted record. -/
def sampleRecord : ParsedData :=
  { chatDetails := some sampleDetails
    displayName := some "Alice"
    region := some "us-east-1"
    stage := some "prod"
    customizationParams := some sampleParams
    language := some "en_US"
    composerConfig := some { attachmentsEnabled := true, richMessagingEnabled := false } }

/-- A concrete record like `sampleRecord` but with the `startChatResult`
field missing from its `chatDetails`: valid JSON, structurally invalid. -/
def sampleRecordNoResult : ParsedData :=
  { sampleRecord with chatDetails := some { startChatResult := none, featurePermissions := none } }

/-- A concrete host configuration selecting local-storage persistence. -/
def sampleConfig : ChatConfig :=
  { contactFlowId := some "cf1"
    instanceId := some "i1"
    region := some "us-east-1"
    stage := none
    contactAttributes := none
    featurePermissions := none
    chatPersistence := some "localStorage"
    language := none
    supportedMessagingContentTypes := none
    authenticationRedirectUri := none
    authenticationIdentityProvider := none
    name := some "Alice" }

/-- A concrete host configuration with no persistence mode. -/
def configNoPersist : ChatConfig :=
  { contactFlowId := some "cf1"
    instanceId := some "i1"
    region := some "us-east-1"
    stage := none
    contactAttributes := none
    featurePermissions := none
    chatPersistence := none
    language := none
    supportedMessagingContentTypes := none
    authenticationRedirectUri := none
    authenticationIdentityProvider := none
    name := none }

/-- A concrete world with empty stores and the initial component state. -/
def sampleWorld : World := { ls := none, ss := none, state := initialState }

/-- Claim C1: every call to `submitChatInitiation` sets status Initiating
synchronously, as the very first observable step, before either asynchronous
call; and whenever either asynchronous step (the Session Initiator call or
the session-open call) rejects with error `e`, the final status is
InitiateFailed, the failure continuation is invoked with `e`, and neither
store is touched (contents unchanged and no storage operation in the trace). -/
theorem c1_initiation_failure (input : ChatConfig) (w : World)
    (io : Except String ChatDetails) (oo : Except String Unit) (e : String)
    (h : failsWith io oo e) :
    (submitChatInitiation input w io oo).trace.head? = some (.setStatus .Initiating) ∧
    (submitChatInitiation input w io oo).world.state.status = .InitiateFailed ∧
    InitEvent.cbFailure e ∈ (submitChatInitiation input w io oo).trace ∧
    (submitChatInitiation input w io oo).world.ls = w.ls ∧
    (submitChatInitiation input w io oo).world.ss = w.ss ∧
    ∀ op : StorageOp, InitEvent.storage op ∉ (submitChatInitiation input w io oo).trace := by
  rcases h with he | ⟨⟨cd, hok⟩, hoe⟩
  · subst he
    refine ⟨rfl, rfl, ?_, rfl, rfl, ?_⟩
    · simp [submitChatInitiation]
    · intro op
      simp [submitChatInitiation]
  · subst hok
    subst hoe
    refine ⟨rfl, ?_, ?_, ?_, ?_, ?_⟩ <;>
      simp [submitChatInitiation, openChatSession]

/-- Witness for C1: Session Initiator rejects with "NetworkError" at a
concrete config and world. -/
theorem c1_initiation_failure_witness :
    failsWith (Except.error "NetworkError") (Except.ok ()) "NetworkError" ∧
    (submitChatInitiation sampleConfig sampleWorld (Except.error "NetworkError")
        (Except.ok ())).world.state.status = .InitiateFailed :=
  ⟨Or.inl rfl,
   (c1_initiation_failure sampleConfig sampleWorld (Except.error "NetworkError")
     (Except.ok ()) "NetworkError" (Or.inl rfl)).2.1⟩

/-- Claim C5: after `resetState`, both stores hold nothing under the session
key, the status is NotInitiated, and the in-memory session reference is
dropped, whatever the prior world. -/
theorem c5_reset (w : World) :
    resetState w =
      { ls := none
        ss := none
        state := { w.state with status := .NotInitiated, chatSession := none } } ∧
    (resetState w).ls = none ∧
    (resetState w).ss = none ∧
    (resetState w).state.status = .NotInitiated ∧
    (resetState w).state.chatSession = none :=
  ⟨rfl, rfl, rfl, rfl, rfl⟩

/-- Claim C8 (code behavior at the failing input): for every cross-window
message whose payload carries `initChat` with a configuration, the message
listener does nothing — the guard reads `data.initChat` on the event object
itself (always undefined, since the payload sits at `data.data`), so
`ChatInterface.initiateChat` is never invoked. -/
theorem c8_message_listener (payload : MessagePayload) (ls ss : Option StoredText) :
    onWindowMessage { data := payload } ls ss = none := rfl

/-- Claim C2: whenever the storage read yields a persisted record whose
`chatDetails.startChatResult` carries both (nonempty) `ContactId` and
`ParticipantId`, a successful open leaves status Initiated with
`composerConfig` and `language` equal to the record's fields, the session
constructed from the stored record's data, and the stores untouched; and the
truthy read chain prefers local storage whenever it holds a record. -/
theorem c2_rehydrate_valid_record
    (cid pid : String) (fp : Option FeaturePermissions)
    (dn rg stg : Option String) (cpm : Option CustomizationParams)
    (lang : Option String) (cc : Option ComposerConfig)
    (ls ss : Option StoredText) (st : ContainerState)
    (hC : cid ≠ "") (hP : pid ≠ "")
    (hread : firstTruthy ls ss = some (.valid (.obj
      { chatDetails := some
          { startChatResult := some { ContactId := some cid, ParticipantId := some pid }
            featurePermissions := fp }
        displayName := dn
        region := rg
        stage := stg
        customizationParams := cpm
        language := lang
        composerConfig := cc }))) :
    ((checkAndRehydrateChat ls ss st (.ok ())).state.status = .Initiated ∧
     (checkAndRehydrateChat ls ss st (.ok ())).state.composerConfig = cc ∧
     (checkAndRehydrateChat ls ss st (.ok ())).state.language = lang ∧
     (checkAndRehydrateChat ls ss st (.ok ())).state.chatSession = some
       { finalDetails := .asIs
           { startChatResult := some { ContactId := some cid, ParticipantId := some pid }
             featurePermissions := fp }
         displayName := dn
         region := rg
         stage := stg
         customizationParams := cpm } ∧
     (checkAndRehydrateChat ls ss st (.ok ())).ls = ls ∧
     (checkAndRehydrateChat ls ss st (.ok ())).ss = ss) ∧
    (∀ (v : ParsedValue) (u : StoredText),
      firstTruthy (some (.valid v)) (some u) = some (.valid v)) := by
  constructor
  · refine ⟨?_, ?_, ?_, ?_, ?_, ?_⟩ <;>
      simp [checkAndRehydrateChat, hread, rehydrateStep, openChatSession, strTruthy, hC, hP]
  · intro v u
    simp [firstTruthy, optTruthy, truthyText]

/-- Witness for C2: the concrete valid record held in local storage
rehydrates to Initiated. -/
theorem c2_rehydrate_valid_record_witness :
    firstTruthy (some (.valid (.obj sampleRecord))) none = some (.valid (.obj sampleRecord)) ∧
    (checkAndRehydrateChat (some (.valid (.obj sampleRecord))) none initialState
        (.ok ())).state.status = .Initiated := by
  refine ⟨rfl, ?_⟩
  exact ((c2_rehydrate_valid_record "c1" "p1" none (some "Alice") (some "us-east-1")
    (some "prod") (some sampleParams) (some "en_US")
    (some { attachmentsEnabled := true, richMessagingEnabled := false })
    (some (.valid (.obj sampleRecord))) none initialState
    (by decide) (by decide) rfl).1).1

/-- Counterexample for C3: the empty string stored under the session key is
not valid JSON, but it is falsy, so the truthy read chain skips it: the key
is NOT removed from local storage (the claim asserts removal for every
non-JSON stored text). -/
theorem c3_empty_text_counterexample :
    (checkAndRehydrateChat (some (.invalid "")) none initialState (.ok ())).ls
        = some (.invalid "") ∧
    (checkAndRehydrateChat (some (.invalid "")) none initialState (.ok ())).ls ≠ none ∧
    (checkAndRehydrateChat (some (.invalid "")) none initialState (.ok ())).state.status
        = .NotInitiated := by
  refine ⟨rfl, by decide, rfl⟩

/-- Claim C3 as amended: for every stored text that the read chain picks up
(equivalently, every nonempty stored text that is not valid JSON, in either
store), `checkAndRehydrateChat` removes the key from both storages and sets
status NotInitiated; no exception escapes (the parse failure is consumed by
the `catch`, and the function is total). -/
theorem c3_malformed_clears (ls ss : Option StoredText) (raw : String)
    (st : ContainerState) (oo : Except String Unit)
    (h : firstTruthy ls ss = some (.invalid raw)) :
    checkAndRehydrateChat ls ss st oo =
      { ls := none, ss := none, state := { st with status := .NotInitiated } } := by
  simp [checkAndRehydrateChat, h, rehydrateStep]

/-- Witness for C3 (amended): a concrete malformed nonempty text in local
storage is cleared from both stores. -/
theorem c3_malformed_clears_witness :
    firstTruthy (some (.invalid "not json")) none = some (.invalid "not json") ∧
    checkAndRehydrateChat (some (.invalid "not json")) none initialState (.ok ()) =
      { ls := none, ss := none, state := { initialState with status := .NotInitiated } } :=
  ⟨rfl, c3_malformed_clears (some (.invalid "not json")) none "not json"
    initialState (.ok ()) rfl⟩

/-- Counterexample for C6: at a concrete structurally valid stored record, a
rejected session open during rehydration IS given defined behavior by the
code — the rejection lands in the same `catch` as a parse error, so both
stores are cleared and status becomes NotInitiated (and in particular not
InitiateFailed).  The claim asserts the orchestrator defines no behavior for
this case. -/
theorem c6_open_failure_counterexample :
    checkAndRehydrateChat (some (.valid (.obj sampleRecord))) none initialState
        (.error "NetworkError") =
      { ls := none
        ss := none
        state := { initialState with status := .NotInitiated } } ∧
    (checkAndRehydrateChat (some (.valid (.obj sampleRecord))) none initialState
        (.error "NetworkError")).state.status ≠ .InitiateFailed := by
  refine ⟨rfl, by decide⟩

/-- Claim C6 as amended: on the rehydration path a rejected session open does
not produce InitiateFailed; it is caught by the same `catch` clause as a
parse error, clearing both storages and setting status NotInitiated. -/
theorem c6_open_failure_handled
    (cid pid : String) (fp : Option FeaturePermissions)
    (dn rg stg : Option String) (cpm : Option CustomizationParams)
    (lang : Option String) (cc : Option ComposerConfig)
    (ls ss : Option StoredText) (st : ContainerState) (e : String)
    (hC : cid ≠ "") (hP : pid ≠ "")
    (hread : firstTruthy ls ss = some (.valid (.obj
      { chatDetails := some
          { startChatResult := some { ContactId := some cid, ParticipantId := some pid }
            featurePermissions := fp }
        displayName := dn
        region := rg
        stage := stg
        customizationParams := cpm
        language := lang
        composerConfig := cc }))) :
    checkAndRehydrateChat ls ss st (.error e) =
      { ls := none, ss := none, state := { st with status := .NotInitiated } } ∧
    (checkAndRehydrateChat ls ss st (.error e)).state.status ≠ .InitiateFailed := by
  have h1 : checkAndRehydrateChat ls ss st (.error e) =
      { ls := none, ss := none, state := { st with status := .NotInitiated } } := by
    simp [checkAndRehydrateChat, hread, rehydrateStep, openChatSession, strTruthy, hC, hP]
  refine ⟨h1, ?_⟩
  rw [h1]
  simp

/-- Witness for C6 (amended): the concrete valid record with a rejected open
lands on cleared stores and NotInitiated. -/
theorem c6_open_failure_handled_witness :
    firstTruthy (some (.valid (.obj sampleRecord))) none = some (.valid (.obj sampleRecord)) ∧
    checkAndRehydrateChat (some (.valid (.obj sampleRecord))) none initialState
        (.error "NetworkError") =
      { ls := none, ss := none, state := { initialState with status := .NotInitiated } } :=
  ⟨rfl,
   (c6_open_failure_handled "c1" "p1" none (some "Alice") (some "us-east-1")
     (some "prod") (some sampleParams) (some "en_US")
     (some { attachmentsEnabled := true, richMessagingEnabled := false })
     (some (.valid (.obj sampleRecord))) none initialState "NetworkError"
     (by decide) (by decide) rfl).1⟩

/-- Claim C4: `saveChatSession` always removes the session key from both
stores first (the first two operations), then writes a fresh record only to
the single store named by the persistence mode; with an absent or
unrecognized mode nothing is written and both stores end cleared — so after
any call at most one Session Record exists in persistence. -/
theorem c4_persist_contract (input : ChatConfig) (cd : ChatDetails)
    (cp : CustomizationParams) (ls ss : Option StoredText) :
    (saveChatSession input cd cp ls ss).ops.take 2
        = [.removeItem .localStorage, .removeItem .sessionStorage] ∧
    ¬((saveChatSession input cd cp ls ss).ls ≠ none ∧
      (saveChatSession input cd cp ls ss).ss ≠ none) ∧
    (recognizedStore input.chatPersistence = some .localStorage →
      (saveChatSession input cd cp ls ss).ls
          = some (.valid (.obj (buildRecord input cd cp))) ∧
      (saveChatSession input cd cp ls ss).ss = none) ∧
    (recognizedStore input.chatPersistence = some .sessionStorage →
      (saveChatSession input cd cp ls ss).ss
          = some (.valid (.obj (buildRecord input cd cp))) ∧
      (saveChatSession input cd cp ls ss).ls = none) ∧
    (recognizedStore input.chatPersistence = none →
      (saveChatSession input cd cp ls ss).ls = none ∧
      (saveChatSession input cd cp ls ss).ss = none ∧
      ∀ (s : StoreName) (v : StoredText),
        StorageOp.setItem s v ∉ (saveChatSession input cd cp ls ss).ops) := by
  cases hrec : recognizedStore input.chatPersistence with
  | none => simp [saveChatSession, hrec]
  | some sname => cases sname <;> simp [saveChatSession, hrec]

/-- Witness for C4: the concrete config naming local storage writes the
record there and leaves session storage empty. -/
theorem c4_persist_contract_witness :
    recognizedStore sampleConfig.chatPersistence = some .localStorage ∧
    (saveChatSession sampleConfig sampleDetails sampleParams none none).ls
        = some (.valid (.obj (buildRecord sampleConfig sampleDetails sampleParams))) ∧
    (saveChatSession sampleConfig sampleDetails sampleParams none none).ss = none :=
  ⟨rfl, (c4_persist_contract sampleConfig sampleDetails sampleParams none none).2.2.1 rfl⟩

/-- Counterexample for C7: `ChatInterface.initiateChat` parses the stored
text with `JSON.parse` outside any `try`, so at a concrete config (local
persistence) and a concrete malformed stored text the parse error escapes the
call to its caller — it is not caught on this path, though the claim asserts
it is caught in every path that deserializes the record. -/
theorem c7_uncaught_parse_counterexample :
    interfaceInitiateChat sampleConfig (some (.invalid "not json")) none =
      .error ("SyntaxError: Unexpected token in JSON: " ++ "not json") := rfl

/-- Claim C7 as amended: a stored text that is not valid serialized data is
caught and never propagated on the `checkAndRehydrateChat` path (both stores
cleared, NotInitiated), but on the `ChatInterface.initiateChat` path the
parse failure is not caught and propagates to the caller, whichever store the
configuration names. -/
theorem c7_parse_error_paths :
    (∀ (ls ss : Option StoredText) (raw : String) (st : ContainerState)
        (oo : Except String Unit),
      firstTruthy ls ss = some (.invalid raw) →
      checkAndRehydrateChat ls ss st oo =
        { ls := none, ss := none, state := { st with status := .NotInitiated } }) ∧
    (∀ (cfg : ChatConfig) (ss : Option StoredText) (raw : String),
      cfg.chatPersistence = some "localStorage" →
      interfaceInitiateChat cfg (some (.invalid raw)) ss =
        .error ("SyntaxError: Unexpected token in JSON: " ++ raw)) ∧
    (∀ (cfg : ChatConfig) (ls : Option StoredText) (raw : String),
      cfg.chatPersistence = some "sessionStorage" →
      interfaceInitiateChat cfg ls (some (.invalid raw)) =
        .error ("SyntaxError: Unexpected token in JSON: " ++ raw)) := by
  refine ⟨?_, ?_, ?_⟩
  · intro ls ss raw st oo h
    simp [checkAndRehydrateChat, h, rehydrateStep]
  · intro cfg ss raw h
    simp [interfaceInitiateChat, h, recognizedStore]
  · intro cfg ls raw h
    simp [interfaceInitiateChat, h, recognizedStore]

/-- Witness for C7 (amended): the concrete local-persistence config with
malformed stored text produces an escaping error. -/
theorem c7_parse_error_paths_witness :
    sampleConfig.chatPersistence = some "localStorage" ∧
    interfaceInitiateChat sampleConfig (some (.invalid "not json")) none =
      .error ("SyntaxError: Unexpected token in JSON: " ++ "not json") :=
  ⟨rfl, c7_parse_error_paths.2.1 sampleConfig none "not json" rfl⟩

/-- Counterexample for C9: with a configuration whose persistence mode is
absent, calling `saveChatSession` twice with the same arguments leaves ZERO
records (both stores empty), not "exactly one record in exactly one store" as
the claim states for every configuration. -/
theorem c9_no_store_counterexample :
    (saveChatSession configNoPersist sampleDetails sampleParams
      (saveChatSession configNoPersist sampleDetails sampleParams none none).ls
      (saveChatSession configNoPersist sampleDetails sampleParams none none).ss).ls = none ∧
    (saveChatSession configNoPersist sampleDetails sampleParams
      (saveChatSession configNoPersist sampleDetails sampleParams none none).ls
      (saveChatSession configNoPersist sampleDetails sampleParams none none).ss).ss = none ∧
    ¬ exactlyOneRecord (saveChatSession configNoPersist sampleDetails sampleParams
      (saveChatSession configNoPersist sampleDetails sampleParams none none).ls
      (saveChatSession configNoPersist sampleDetails sampleParams none none).ss) := by
  refine ⟨rfl, rfl, ?_⟩
  simp [exactlyOneRecord, saveChatSession, configNoPersist, recognizedStore]

/-- Claim C9 as amended: `saveChatSession` is idempotent with respect to
storage contents — its result never depends on the prior contents, so a
second call with the same arguments reproduces the first call's result
exactly; when the configuration names a supported store the result is exactly
one record in exactly that one store, and otherwise no record at all. -/
theorem c9_persist_idempotent (input : ChatConfig) (cd : ChatDetails)
    (cp : CustomizationParams) (ls ss : Option StoredText) :
    saveChatSession input cd cp
        (saveChatSession input cd cp ls ss).ls (saveChatSession input cd cp ls ss).ss
      = saveChatSession input cd cp ls ss ∧
    ((recognizedStore input.chatPersistence).isSome = true →
      exactlyOneRecord (saveChatSession input cd cp ls ss)) ∧
    (recognizedStore input.chatPersistence = none →
      (saveChatSession input cd cp ls ss).ls = none ∧
      (saveChatSession input cd cp ls ss).ss = none) := by
  cases hrec : recognizedStore input.chatPersistence with
  | none => simp [saveChatSession, hrec]
  | some sname => cases sname <;> simp [saveChatSession, hrec, exactlyOneRecord]

/-- Witness for C9 (amended): the local-storage config yields exactly one
record, in local storage. -/
theorem c9_persist_idempotent_witness :
    (recognizedStore sampleConfig.chatPersistence).isSome = true ∧
    exactlyOneRecord (saveChatSession sampleConfig sampleDetails sampleParams none none) :=
  ⟨rfl, (c9_persist_idempotent sampleConfig sampleDetails sampleParams none none).2.1 rfl⟩

/-- Counterexample for C10: the stored text `"null"` parses as valid JSON,
is structurally invalid (it has no `chatDetails`), yet the record is DELETED
from both stores — `parsedData.chatDetails` throws a TypeError on `null`,
landing in the same `catch` as a parse failure — contradicting the claim that
a structurally invalid record is left in place. -/
theorem c10_null_record_counterexample :
    checkAndRehydrateChat (some (.valid .null)) none initialState (.ok ()) =
      { ls := none
        ss := none
        state := { initialState with status := .NotInitiated } } ∧
    (checkAndRehydrateChat (some (.valid .null)) none initialState (.ok ())).ls = none :=
  ⟨rfl, rfl⟩

/-- Claim C10 as amended: for every stored record that parses to a non-null
value and is structurally invalid (a primitive, or an object missing/failing
`chatDetails`, `startChatResult`, `ContactId` or `ParticipantId`),
`checkAndRehydrateChat` sets status NotInitiated without attempting to open a
session (the result is the same for every open outcome) and leaves both
stores exactly as they were. -/
theorem c10_invalid_left_in_place (ls ss : Option StoredText) (v : ParsedValue)
    (st : ContainerState) (oo : Except String Unit)
    (h1 : firstTruthy ls ss = some (.valid v))
    (h2 : structurallyInvalidNonNull v) :
    checkAndRehydrateChat ls ss st oo =
      { ls := ls, ss := ss, state := { st with status := .NotInitiated } } := by
  cases v with
  | null => exact h2.elim
  | prim b => simp [checkAndRehydrateChat, h1, rehydrateStep]
  | obj p =>
    have hsv : structValid p = false := h2
    cases hcd : p.chatDetails with
    | none => simp [checkAndRehydrateChat, h1, rehydrateStep, hcd]
    | some cd =>
      simp only [structValid, hcd] at hsv
      cases hsr : cd.startChatResult with
      | none => simp [checkAndRehydrateChat, h1, rehydrateStep, hcd, hsr]
      | some r =>
        simp only [hsr] at hsv
        simp [checkAndRehydrateChat, h1, rehydrateStep, hcd, hsr, hsv]

/-- Witness for C10 (amended): a concrete record whose `startChatResult` is
missing is left in place with status NotInitiated. -/
theorem c10_invalid_left_in_place_witness :
    firstTruthy (some (.valid (.obj sampleRecordNoResult))) none
      = some (.valid (.obj sampleRecordNoResult)) ∧
    structurallyInvalidNonNull (.obj sampleRecordNoResult) ∧
    checkAndRehydrateChat (some (.valid (.obj sampleRecordNoResult))) none
        initialState (.ok ()) =
      { ls := some (.valid (.obj sampleRecordNoResult))
        ss := none
        state := { initialState with status := .NotInitiated } } :=
  ⟨rfl,
   by simp [structurallyInvalidNonNull, structValid, sampleRecordNoResult],
   c10_invalid_left_in_place (some (.valid (.obj sampleRecordNoResult))) none
     (.obj sampleRecordNoResult) initialState (.ok ()) rfl
     (by simp [structurallyInvalidNonNull, structValid, sampleRecordNoResult])⟩

end ConnectChat
